import Mathlib

/-!
Verification of the connection/session protocol layer of go_chat_client.

Shallow embedding of:
  * package `connection` (connection.Handler: listener registries, Listen loop, WriteJSON),
  * package `chat` (chat.Handler: disconnect handling, login response handling,
    post-message / online-users requests, token hand-off),
  * package `stdin` (AskNickname),
  * the startup wiring order of `main.go`.

JSON values are modelled at the AST level.  Go decodes every JSON number into a
`float64`; every number appearing in this protocol (the `type` and `status`
enumerations, values 1..7) is a small integer, exactly representable in
`float64`, and no arithmetic is performed on them, so the numeric payload is
modelled as `Int`.
-/

namespace GoChat

/-- JSON value as decoded by Go into `any` (map[string]any for objects). -/
inductive JVal where
  | num (n : Int)
  | str (s : String)
  | bool (b : Bool)
  | list (xs : List JVal)

/-- A decoded wire message: the Go `map[string]any`.  Represented as an
association list; `canon` below gives the canonical (key-sorted) form that
makes list equality coincide with Go map equality. -/
abbrev Envelope := List (String × JVal)

/-- `resp[k]` on a Go map: `none` models the key being absent (Go yields the
zero value `nil` for `any`). -/
def envGet (env : Envelope) (k : String) : Option JVal :=
  match env with
  | [] => none
  | (k', v) :: rest => if k' = k then some v else envGet rest k

/-- Strict lexicographic order on character lists (by code point), used as the
key order of the canonical map representation. -/
def charListLt : List Char → List Char → Bool
  | [], [] => false
  | [], _ :: _ => true
  | _ :: _, [] => false
  | c :: cs, d :: ds =>
    if c.toNat < d.toNat then true
    else if d.toNat < c.toNat then false
    else charListLt cs ds

/-- Lexicographic order on strings (the Go byte order on the keys in play, which
are ASCII). -/
def strLt (a b : String) : Bool := charListLt a.data b.data

/-- Insert one field into a key-sorted association list, keeping it sorted.
Models the deterministic key order of a Go map value (`json.Marshal` of a map
emits keys in sorted order; map equality ignores insertion order). -/
def insertByKey (p : String × JVal) : Envelope → Envelope
  | [] => [p]
  | q :: rest => if strLt p.1 q.1 then p :: q :: rest else q :: insertByKey p rest

/-- Canonical form of an envelope: fields sorted by key.  Two Go maps are equal
iff their canonical forms are equal (keys in this protocol are distinct). -/
def canon : Envelope → Envelope
  | [] => []
  | p :: rest => insertByKey p (canon rest)

/-- Errors.  cockroachdb/errors values are modelled by their message together
with the classification that `errors.As` extracts in `Listen`:
`isClose` — the chain contains a `*websocket.CloseError`;
`isNet` — the chain contains a `net.Error`. -/
structure GoError where
  isClose : Bool
  isNet : Bool
  msg : String
  deriving DecidableEq, Repr

/-- `errors.Wrap(err, ctx)`: prefixes the message, preserves the chain (and so
the `errors.As` classification). -/
def wrap (ctx : String) (e : GoError) : GoError :=
  { e with msg := ctx ++ ": " ++ e.msg }

/-- Result of one `conn.ReadJSON(&resp)` call: success with a decoded envelope,
or failure with an error. -/
inductive ReadResult where
  | ok (env : Envelope)
  | fail (e : GoError)

/-- The condition of the first branch in `Listen`:
`errors.As(err, &closeErr) || errors.As(err, &netErr)`. -/
def isDisconnectErr (e : GoError) : Bool :=
  e.isClose || e.isNet

/-- connection.Handler, abstracted over the identity types of the registered
listeners (Go stores `func(map[string]any)` / `func(error)` values; the model
only needs to track which listener is called, with what, in what order). -/
structure ConnHandler (R D : Type) where
  onResponse : List R
  onDisconnect : List D

/-- `AddOnRespListener`: appends to the `onResponse` registry. -/
def addOnRespListener {R D : Type} (h : ConnHandler R D) (l : R) : ConnHandler R D :=
  { h with onResponse := h.onResponse ++ [l] }

/-- `AddOnDisconnectListener`: appends to the `onDisconnect` registry. -/
def addOnDisconnectListener {R D : Type} (h : ConnHandler R D) (l : D) : ConnHandler R D :=
  { h with onDisconnect := h.onDisconnect ++ [l] }

/-- One listener invocation performed by `Listen`. -/
inductive DispatchEvent (R D : Type) where
  | respCall (l : R) (env : Envelope)
  | discCall (l : D) (e : GoError)

/-- `connection.Handler.Listen`, run against a finite prefix of read results.
Returns the trace of listener invocations, and `some err` when the loop
terminated by returning an error (`none` when the prefix was consumed with the
loop still running).  Mirrors the source: a close/net-classified read error
notifies every disconnect listener and `continue`s; any other read error
returns wrapped; a successful read notifies every response listener. -/
def listen {R D : Type} (h : ConnHandler R D) :
    List ReadResult → List (DispatchEvent R D) × Option GoError
  | [] => ([], none)
  | r :: rest =>
    match r with
    | .fail e =>
      if isDisconnectErr e then
        let next := listen h rest
        (h.onDisconnect.map (fun l => .discCall l e) ++ next.1, next.2)
      else
        ([], some (wrap "Read JSON from connection" e))
    | .ok env =>
      let next := listen h rest
      (h.onResponse.map (fun l => .respCall l env) ++ next.1, next.2)

/-! ### Message taxonomy (package chat, const blocks) -/

def typeLoginReq : Int := 1
def typeLoginResp : Int := 2
def typePostMessageReq : Int := 3
def typePostMessageResp : Int := 4
def typeChatMessageToClient : Int := 5
def typeOnlineUsersReq : Int := 6
def typeOnlineUsers : Int := 7

def statusOk : Int := 1
def statusInvalidToken : Int := 2
def statusNameAlreadyTaken : Int := 3
def statusNameIsEmpty : Int := 4
def statusNameIsTooLong : Int := 5
def statusMessageIsEmpty : Int := 6
def statusMessageIsTooLong : Int := 7

/-! ### Request/response structs (package chat) and their JSON encoding.

`json.Marshal` of a Go struct emits the fields in declaration order with the
`json` tag as key; `json.Marshal` of a `map[string]any` emits keys in sorted
order.  Decoding into `map[string]any` is modelled by `canon` (a Go map is
order-free; the sorted association list is its canonical representative). -/

structure loginReq where
  type : Int
  nickname : String
  deriving DecidableEq, Repr

structure loginResp where
  type : Int
  token : String
  status : Int
  deriving DecidableEq, Repr

structure postMsgReq where
  type : Int
  token : String
  msg : String
  deriving DecidableEq, Repr

structure postMsgResp where
  type : Int
  status : Int
  deriving DecidableEq, Repr

structure chatMsgToClient where
  type : Int
  nickname : String
  msg : String
  isSystem : Bool
  deriving DecidableEq, Repr

structure onlineUsersReq where
  type : Int
  token : String
  deriving DecidableEq, Repr

structure onlineUsers where
  type : Int
  status : Int
  users : List String
  deriving DecidableEq, Repr

/-- `json.Marshal` of a `loginReq` value (field order, `json` tags). -/
def loginReq.encode (r : loginReq) : Envelope :=
  [("type", .num r.type), ("nickname", .str r.nickname)]

/-- `json.Marshal` of a `postMsgReq` value (field order, `json` tags). -/
def postMsgReq.encode (r : postMsgReq) : Envelope :=
  [("type", .num r.type), ("token", .str r.token), ("msg", .str r.msg)]

/-- `json.Marshal` of an `onlineUsersReq` value (field order, `json` tags). -/
def onlineUsersReq.encode (r : onlineUsersReq) : Envelope :=
  [("type", .num r.type), ("token", .str r.token)]

/-- `ReadJSON` / `json.Unmarshal` into `map[string]any`: the wire object becomes
a Go map, represented canonically. -/
def decodeGeneric (wire : Envelope) : Envelope := canon wire

/-- `json.Marshal` of a `map[string]any`: keys are emitted in sorted order. -/
def marshalMap (env : Envelope) : Envelope := canon env

/-! ### mapstructure.Decode into the response structs.

mapstructure leaves a struct field at its zero value when the map has no
matching key, and fails with an error when a present value has the wrong
dynamic type. -/

/-- Fetch a numeric field: absent ↦ zero value `0`; wrong type ↦ decode error. -/
def mapGetNum (env : Envelope) (k : String) : Option Int :=
  match envGet env k with
  | none => some 0
  | some (.num n) => some n
  | some _ => none

/-- Fetch a string field: absent ↦ zero value `""`; wrong type ↦ decode error. -/
def mapGetStr (env : Envelope) (k : String) : Option String :=
  match envGet env k with
  | none => some ""
  | some (.str s) => some s
  | some _ => none

/-- Fetch a bool field: absent ↦ zero value `false`; wrong type ↦ decode error. -/
def mapGetBool (env : Envelope) (k : String) : Option Bool :=
  match envGet env k with
  | none => some false
  | some (.bool b) => some b
  | some _ => none

/-- Fetch a `[]string` field: absent ↦ nil slice; a list whose every element is
a string decodes elementwise; anything else is a decode error. -/
def mapGetStrList (env : Envelope) (k : String) : Option (List String) :=
  match envGet env k with
  | none => some []
  | some (.list xs) =>
    xs.mapM fun v => match v with | .str s => some s | _ => none
  | some _ => none

/-- `mapstructure.Decode(resp, &r)` for `r : loginResp`. -/
def decodeLoginResp (env : Envelope) : Option loginResp := do
  let t ← mapGetNum env "type"
  let tok ← mapGetStr env "token"
  let st ← mapGetNum env "status"
  pure ⟨t, tok, st⟩

/-- `mapstructure.Decode(resp, &r)` for `r : onlineUsers`. -/
def decodeOnlineUsers (env : Envelope) : Option onlineUsers := do
  let t ← mapGetNum env "type"
  let st ← mapGetNum env "status"
  let us ← mapGetStrList env "users"
  pure ⟨t, st, us⟩

/-- `mapstructure.Decode(resp, &r)` for `r : chatMsgToClient`. -/
def decodeChatMsgToClient (env : Envelope) : Option chatMsgToClient := do
  let t ← mapGetNum env "type"
  let nick ← mapGetStr env "nickname"
  let m ← mapGetStr env "msg"
  let sys ← mapGetBool env "isSystem"
  pure ⟨t, nick, m, sys⟩

/-- The Go dynamic comparison `resp["type"] == (n as float64)`: true iff the
key is present, numeric and equal to `n`. -/
def envTypeIs (env : Envelope) (n : Int) : Bool :=
  match envGet env "type" with
  | some (.num m) => m = n
  | _ => false

/-! ### Go channel semantics (for the token hand-off `tokenCh`). -/

/-- A Go channel, abstracted to what decides whether a send blocks. -/
structure GoChan where
  capacity : Nat
  queued : Nat
  deriving DecidableEq, Repr

/-- A Go channel send completes without blocking the sender iff a receiver is
currently blocked on the channel, or the buffer has free space
(`queued < capacity`).  Otherwise the sender blocks until a receiver arrives. -/
def sendCompletesImmediately (c : GoChan) (receiverWaiting : Bool) : Bool :=
  receiverWaiting || decide (c.queued < c.capacity)

/-- `make(chan string)` as executed by `chat.NewHandler` for `tokenCh`:
an unbuffered channel (capacity 0). -/
def newHandlerTokenCh : GoChan := { capacity := 0, queued := 0 }

/-! ### stdin collaborator (package stdin): AskNickname. -/

/-- White space as trimmed by strings.TrimSpace (the ASCII cases; the protocol
nicknames in play are ASCII). -/
def isSpaceChar (c : Char) : Bool :=
  c = ' ' || c = '\t' || c = '\n' || c = '\r'

/-- strings.TrimSpace: drop leading and trailing white space. -/
def trimSpace (s : String) : String :=
  ⟨((s.data.dropWhile isSpaceChar).reverse.dropWhile isSpaceChar).reverse⟩

/-- The validation callback `AskNickname` passes to `ask`: returns `true`
(re-prompt) on empty input or input longer than 20 bytes. -/
def askNicknameCallback (input : String) : Bool :=
  if input = "" then true
  else if input.utf8ByteSize > 20 then true
  else false

/-- `stdin.AskNickname`, run against a finite prefix of stdin lines: `ask`
trims each line and loops until the callback accepts; `none` models the
infinite re-prompt when no provided line is ever accepted. -/
def askNickname : List String → Option String
  | [] => none
  | line :: rest =>
    let input := trimSpace line
    if askNicknameCallback input then askNickname rest else some input

/-! ### chat.Handler. -/

/-- The mutable state of `chat.Handler` that the claims depend on.
`chatUIAttached` records whether `main` has assigned the `ChatUI` field
(`chatHandler.ChatUI = chatUI`); before that the field holds the zero
`ui.Chat` value, whose `OnlineUsersCh` channel is nil. -/
structure ChatHandler where
  chatUIAttached : Bool
  nickname : String
  token : String
  deriving DecidableEq, Repr

/-- Observable side effects of the chat handler bodies. -/
inductive ChatAction where
  | logError (msg : String)
  | logWarn (msg : String)
  | logInfo (msg : String)
  | pushOnlineUsers (users : List String)
  | sleepSeconds (n : Nat)
  | connConnect
  | send (env : Envelope)
  | sendTokenOnCh (tok : String)
  | armTokenReceiver

/-- `chat.Handler.login()`: `h.conn.WriteJSON(loginReq{Type: typeLoginReq,
Nickname: h.cfg.Nickname})`.  The returned error is logged by every caller and
does not change control flow, so the model keeps only the send. -/
def login (h : ChatHandler) : ChatAction :=
  .send (loginReq.encode ⟨typeLoginReq, h.nickname⟩)

/-- `lo.IsEmpty(&h.ChatUI)`: `lo.IsEmpty` compares its argument against the
zero value of its type.  The argument is `&h.ChatUI`, the address of a struct
field, which is never the nil pointer, so the comparison is false regardless
of whether a UI was attached. -/
def loIsEmptyAddrOfChatUI (_h : ChatHandler) : Bool := false

/-- Body of the disconnect listener registered by `HandleOnDisconnect`:
log, push `[]string{}` to `ChatUI.OnlineUsersCh` when the `lo.IsEmpty` guard
passes, sleep 5 s, `conn.Connect()`, `login()`, and re-arm
`go func() { h.token = <-h.tokenCh }()`.  No field of `h` is written. -/
def handleOnDisconnect (h : ChatHandler) (e : GoError) : List ChatAction × ChatHandler :=
  ([ChatAction.logError ((wrap "Lost connection to server" e).msg ++ " Retrying in 5 seconds.")]
    ++ (if !loIsEmptyAddrOfChatUI h then [ChatAction.pushOnlineUsers []] else [])
    ++ [ChatAction.sleepSeconds 5, ChatAction.connConnect, login h,
        ChatAction.armTokenReceiver],
   h)

/-- The armed receiver `go func() { h.token = <-h.tokenCh }()` (and likewise the
assignment in `LoginAndWaitForToken`) when a token `t` arrives on `tokenCh`. -/
def armedTokenReceive (h : ChatHandler) (t : String) : ChatHandler :=
  { h with token := t }

/-- Body of the response listener registered by `HandleLoginResponse`, given a
finite prefix of stdin lines for the `AskNickname` prompt.  `none` models the
branch that never returns (AskNickname re-prompting forever). -/
def handleLoginResponse (stdin : List String) (h : ChatHandler) (env : Envelope) :
    Option (List ChatAction × ChatHandler) :=
  if !envTypeIs env typeLoginResp then some ([], h)
  else
    match decodeLoginResp env with
    | none => some ([.logError "Decode login status response"], h)
    | some r =>
      if r.status = statusOk then
        some ([.logInfo "Login successful", .sendTokenOnCh r.token], h)
      else if r.status = statusNameAlreadyTaken then
        match askNickname stdin with
        | none => none
        | some nick =>
          let h' := { h with nickname := nick }
          some ([.logWarn "Name is already taken", login h'], h')
      else
        some ([.logError ("Login failed, status: " ++ toString r.status)], h)

/-- Body of the response listener registered by `HandleOnlineUsers`. -/
def handleOnlineUsers (env : Envelope) : List ChatAction :=
  if !envTypeIs env typeOnlineUsers then []
  else
    match decodeOnlineUsers env with
    | none => [.logError "Decode online users response"]
    | some r =>
      if r.status = statusOk then [.pushOnlineUsers r.users]
      else [.logError ("Get online users failed, status: " ++ toString r.status)]

/-- `chat.Handler.PostMessage`: sends `postMsgReq{Type: typePostMessageReq,
Token: h.token, Msg: msg}`. -/
def PostMessage (h : ChatHandler) (msg : String) : ChatAction :=
  .send (postMsgReq.encode ⟨typePostMessageReq, h.token, msg⟩)

/-- `chat.Handler.RequestOnlineUsers`: sends `onlineUsersReq{Type:
typeOnlineUsersReq, Token: h.token}`. -/
def RequestOnlineUsers (h : ChatHandler) : ChatAction :=
  .send (onlineUsersReq.encode ⟨typeOnlineUsersReq, h.token⟩)

/-- Is this action a login request send? (a send whose envelope carries
`type = typeLoginReq`). -/
def ChatAction.isLoginReqSend : ChatAction → Bool
  | .send env => envTypeIs env typeLoginReq
  | _ => false

/-- Is this action a push on `ChatUI.OnlineUsersCh`? -/
def ChatAction.isPushOnlineUsers : ChatAction → Bool
  | .pushOnlineUsers _ => true
  | _ => false

/-! ### connection.Handler.WriteJSON (the transport send). -/

/-- The `conn *websocket.Conn` field of `connection.Handler`.  It is the nil
pointer until the first successful `Connect` (which is the only code that
assigns it); afterwards it always holds a handle — `Connect` never clears it,
so during a reconnect it retains the previous, no-longer-open connection. -/
inductive ConnPtr where
  | nil
  | handle (isOpen : Bool)
  deriving DecidableEq, Repr

/-- Outcome of a send attempt. -/
inductive SendResult where
  | ok
  | ioError (msg : String)
  | nilDerefPanic
  deriving DecidableEq, Repr

def SendResult.isIOError : SendResult → Bool
  | .ioError _ => true
  | _ => false

/-- `(*websocket.Conn).WriteJSON` as called through the stored handle: a write
on a handle that is no longer open returns an I/O error; calling the method
through a nil `*websocket.Conn` dereferences its receiver and panics (Go
runtime nil-pointer dereference), it does not return an error. -/
def connWriteJSON : ConnPtr → SendResult
  | .nil => .nilDerefPanic
  | .handle o => if o then .ok else .ioError "write: connection closed"

/-- `connection.Handler.WriteJSON`: `return h.conn.WriteJSON(req)` — a single
underlying write attempt whose result is returned to the caller unchanged.
The second component counts the underlying write attempts performed. -/
def writeJSON (conn : ConnPtr) : SendResult × Nat :=
  (connWriteJSON conn, 1)

/-! ### Startup wiring order (main.go). -/

/-- The calls of `main` that the wiring claims depend on, in program order. -/
inductive StartupStep where
  | parseFlags
  | readConfig
  | newConnHandler
  | connect
  | startListenGoroutine
  | newChatHandler
  | registerDisconnectListener (name : String)
  | registerRespListener (name : String)
  | loginAndWaitForToken
  | newChatUI
  | attachChatUI
  | startDrawGoroutine
  | startUpdateOnlineBoxGoroutine
  | waitForView
  | uiAddOnMsgSendListener
  | uiAddOnOnlineBoxOpenListener
  | writeConfig
  deriving DecidableEq, Repr

/-- The straight-line order of `main` (the conditional first-run prompts do not
touch the listener registries and are omitted).  Each `chat.Handler.Handle*`
call performs exactly one `AddOn*Listener` registration on the transport. -/
def mainStartupSequence : List StartupStep :=
  [ .parseFlags
  , .readConfig
  , .newConnHandler
  , .connect
  , .startListenGoroutine
  , .newChatHandler
  , .registerDisconnectListener "HandleOnDisconnect"
  , .registerRespListener "HandleLoginResponse"
  , .loginAndWaitForToken
  , .newChatUI
  , .attachChatUI
  , .startDrawGoroutine
  , .startUpdateOnlineBoxGoroutine
  , .waitForView
  , .uiAddOnMsgSendListener
  , .uiAddOnOnlineBoxOpenListener
  , .registerRespListener "HandleChatMsgToClient"
  , .registerRespListener "HandlePostMessageResponse"
  , .registerRespListener "HandleOnlineUsers"
  , .writeConfig
  ]

/-- Does this step mutate a transport listener registry
(`AddOnRespListener` / `AddOnDisconnectListener`)? -/
def StartupStep.isTransportRegistration : StartupStep → Bool
  | .registerDisconnectListener _ => true
  | .registerRespListener _ => true
  | _ => false

/-- Does this step start the receive loop (`go func() { connHandler.Listen() }`)? -/
def StartupStep.startsReceiveLoop : StartupStep → Bool
  | .startListenGoroutine => true
  | _ => false

/-- True iff some transport listener registration occurs after the receive
loop goroutine has been started. -/
def registrationAfterListenStart : List StartupStep → Bool
  | [] => false
  | s :: rest =>
    if s.startsReceiveLoop then rest.any StartupStep.isTransportRegistration
    else registrationAfterListenStart rest

/-! ### Concrete sample values used by witnesses and counterexamples. -/

/-- Listener identity type for the dispatch examples. -/
abbrev LId := String

def sampleConnHandler : ConnHandler LId LId :=
  { onResponse := ["loginRespL", "chatMsgL"], onDisconnect := ["disconnectL"] }

def emptyConnHandler : ConnHandler LId LId :=
  { onResponse := [], onDisconnect := [] }

/-- A read error that `errors.As` classifies as a net.Error. -/
def eNetSample : GoError := { isClose := false, isNet := true, msg := "connection reset by peer" }

/-- A read error that `errors.As` classifies as a websocket.CloseError. -/
def eCloseSample : GoError := { isClose := true, isNet := false, msg := "close 1006 abnormal closure" }

/-- A read error with neither classification (e.g. malformed JSON). -/
def eOtherSample : GoError := { isClose := false, isNet := false, msg := "invalid character" }

/-- A decoded chat-message envelope. -/
def envSample : Envelope :=
  [("type", JVal.num 5), ("nickname", JVal.str "alice"),
   ("msg", JVal.str "hi"), ("isSystem", JVal.bool false)]

/-- A chat handler before `main` assigns the `ChatUI` field. -/
def noUIHandler : ChatHandler := { chatUIAttached := false, nickname := "bob", token := "tok0" }

/-- A chat handler with the UI attached. -/
def bobHandler : ChatHandler := { chatUIAttached := true, nickname := "bob", token := "tok0" }

/-- A login response with status `name already taken`. -/
def nameTakenEnv : Envelope :=
  [("type", JVal.num 2), ("token", JVal.str ""), ("status", JVal.num 3)]

/-- An online-users response with status ok. -/
def okUsersEnv : Envelope :=
  [("type", JVal.num 7), ("status", JVal.num 1),
   ("users", JVal.list [JVal.str "alice", JVal.str "bob"])]

/-- The §8 scenario envelope: online-users response with status 3 (name taken),
an unexpected status for this response type. -/
def badUsersEnv : Envelope :=
  [("type", JVal.num 7), ("status", JVal.num 3), ("users", JVal.list [])]

/-! ### Theorems. -/

/-- Helper: registering listeners with `AddOnRespListener` appends them to the
`onResponse` registry in call order. -/
theorem foldl_addOnRespListener {R D : Type} (regs : List R) (h0 : ConnHandler R D) :
    (regs.foldl addOnRespListener h0).onResponse = h0.onResponse ++ regs := by
  induction regs generalizing h0 with
  | nil => simp
  | cons r rs ih => simp [List.foldl, addOnRespListener, ih]

/-- C1: each iteration of the `Listen` receive loop behaves by the class of the
read result: a close- or net-classified read error notifies every registered
disconnect listener with that error and the loop goes on with the next
iteration; a read error with neither classification terminates the loop,
returning the wrapped error to the caller; a successful read and decode
notifies every registered response listener with the decoded envelope and the
loop goes on. -/
theorem listen_iteration_cases {R D : Type} (h : ConnHandler R D)
    (e : GoError) (env : Envelope) (rest : List ReadResult) :
    (isDisconnectErr e = true →
      listen h (ReadResult.fail e :: rest) =
        (h.onDisconnect.map (fun l => DispatchEvent.discCall l e) ++ (listen h rest).1,
         (listen h rest).2)) ∧
    (isDisconnectErr e = false →
      listen h (ReadResult.fail e :: rest) =
        ([], some (wrap "Read JSON from connection" e))) ∧
    listen h (ReadResult.ok env :: rest) =
      (h.onResponse.map (fun l => DispatchEvent.respCall l env) ++ (listen h rest).1,
       (listen h rest).2) := by
  refine ⟨fun hd => ?_, fun hd => ?_, ?_⟩
  · simp [listen, hd]
  · simp [listen, hd]
  · simp [listen]

/-- Witness for C1: the three cases at concrete inputs. -/
theorem listen_iteration_cases_witness :
    (listen sampleConnHandler [ReadResult.fail eNetSample] =
      (sampleConnHandler.onDisconnect.map (fun l => DispatchEvent.discCall l eNetSample)
         ++ (listen sampleConnHandler ([] : List ReadResult)).1,
       (listen sampleConnHandler ([] : List ReadResult)).2)) ∧
    (listen sampleConnHandler [ReadResult.fail eOtherSample] =
      ([], some (wrap "Read JSON from connection" eOtherSample))) ∧
    listen sampleConnHandler [ReadResult.ok envSample] =
      (sampleConnHandler.onResponse.map (fun l => DispatchEvent.respCall l envSample)
         ++ (listen sampleConnHandler ([] : List ReadResult)).1,
       (listen sampleConnHandler ([] : List ReadResult)).2) :=
  ⟨(listen_iteration_cases sampleConnHandler eNetSample envSample []).1 rfl,
   (listen_iteration_cases sampleConnHandler eOtherSample envSample []).2.1 rfl,
   (listen_iteration_cases sampleConnHandler eNetSample envSample []).2.2⟩

/-- C2: on every decoded envelope, the receive loop invokes exactly the
registered response listeners, in exactly registration order, none skipped:
the dispatch trace of one successful read equals the map of the invocation
over the registry built by the successive `AddOnRespListener` calls. -/
theorem resp_dispatch_in_registration_order {R D : Type} (h0 : ConnHandler R D)
    (regs : List R) (env : Envelope) (rest : List ReadResult) :
    (listen (regs.foldl addOnRespListener h0) (ReadResult.ok env :: rest)).1 =
      (h0.onResponse ++ regs).map (fun l => DispatchEvent.respCall l env)
        ++ (listen (regs.foldl addOnRespListener h0) rest).1 := by
  simp [listen, foldl_addOnRespListener]

/-- Witness for C2: three listeners registered in order a, b, c are invoked in
that order. -/
theorem resp_dispatch_in_registration_order_witness :
    (listen (["a", "b", "c"].foldl addOnRespListener emptyConnHandler)
        (ReadResult.ok envSample :: [])).1 =
      (emptyConnHandler.onResponse ++ ["a", "b", "c"]).map
          (fun l => DispatchEvent.respCall l envSample)
        ++ (listen (["a", "b", "c"].foldl addOnRespListener emptyConnHandler)
              ([] : List ReadResult)).1 :=
  resp_dispatch_in_registration_order emptyConnHandler ["a", "b", "c"] envSample []

/-- C3 (code evaluated at the failing input): for a disconnect event arriving
while no UI collaborator is attached (`chatUIAttached = false`, the `ChatUI`
field still the zero value), the handler nevertheless pushes the empty
online-users list — the guard `lo.IsEmpty(&h.ChatUI)` tests the address of the
field, which is never nil, so the push is unconditional; the push there
targets the nil `OnlineUsersCh` channel of the zero `ui.Chat` value and blocks
forever.  The action order of the handler body is: log, push empty list,
sleep 5 s, `Connect`, `login`, re-arm the token receiver. -/
theorem handleOnDisconnect_pushes_without_ui :
    noUIHandler.chatUIAttached = false ∧
    (handleOnDisconnect noUIHandler eCloseSample).1 =
      [ChatAction.logError
         ((wrap "Lost connection to server" eCloseSample).msg ++ " Retrying in 5 seconds."),
       ChatAction.pushOnlineUsers [],
       ChatAction.sleepSeconds 5,
       ChatAction.connConnect,
       login noUIHandler,
       ChatAction.armTokenReceiver] ∧
    (handleOnDisconnect noUIHandler eCloseSample).1.any ChatAction.isPushOnlineUsers = true :=
  ⟨rfl, rfl, rfl⟩

/-- C4 counterexample: a name-taken login response for nickname bob, with the
user typing the very same nickname bob at the prompt, produces a new login
request that carries the rejected nickname again — `AskNickname` validates
only non-emptiness and length, never difference from the rejected name. -/
theorem name_taken_retry_same_nickname_cex :
    bobHandler.nickname = "bob" ∧
    handleLoginResponse ["bob"] bobHandler nameTakenEnv =
      some ([ChatAction.logWarn "Name is already taken",
             ChatAction.send [("type", JVal.num 1), ("nickname", JVal.str "bob")]],
            { bobHandler with nickname := "bob" }) :=
  ⟨rfl, rfl⟩

/-- Helper: whatever `AskNickname` returns was accepted by its validation
callback (non-empty, at most 20 bytes). -/
theorem askNickname_accepts_valid (stdin : List String) (nick : String)
    (h : askNickname stdin = some nick) : askNicknameCallback nick = false := by
  induction stdin with
  | nil => simp [askNickname] at h
  | cons line rest ih =>
    by_cases hc : askNicknameCallback (trimSpace line) = true
    · exact ih (by simpa [askNickname, hc] using h)
    · have : trimSpace line = nick := by
        simpa [askNickname, hc] using h
      simpa [this] using hc

/-- C4 (amended): for every name-taken login response, the listener prompts
via `AskNickname` and sends exactly one new login request; the request carries
the nickname the prompt returned (non-empty, at most 20 bytes), which is the
new `cfg.Nickname` — it is not guaranteed to differ from the rejected one. -/
theorem name_taken_single_login_retry (stdin : List String) (h : ChatHandler)
    (env : Envelope) (r : loginResp) (nick : String)
    (htype : envTypeIs env typeLoginResp = true)
    (hdec : decodeLoginResp env = some r)
    (hst : r.status = statusNameAlreadyTaken)
    (hnick : askNickname stdin = some nick) :
    handleLoginResponse stdin h env =
      some ([ChatAction.logWarn "Name is already taken", login { h with nickname := nick }],
            { h with nickname := nick }) ∧
    ([ChatAction.logWarn "Name is already taken", login { h with nickname := nick }].filter
        ChatAction.isLoginReqSend).length = 1 ∧
    askNicknameCallback nick = false := by
  refine ⟨?_, ?_, askNickname_accepts_valid stdin nick hnick⟩
  · simp [handleLoginResponse, htype, hdec, hst, hnick, statusOk, statusNameAlreadyTaken]
  · simp [ChatAction.isLoginReqSend, login, loginReq.encode, envTypeIs, envGet, typeLoginReq]

/-- Witness for C4 (amended): concrete name-taken response; the first stdin
line is rejected as empty, the second is accepted. -/
theorem name_taken_single_login_retry_witness :
    (handleLoginResponse ["", "alice"] bobHandler nameTakenEnv =
      some ([ChatAction.logWarn "Name is already taken",
             login { bobHandler with nickname := "alice" }],
            { bobHandler with nickname := "alice" })) ∧
    ([ChatAction.logWarn "Name is already taken",
      login { bobHandler with nickname := "alice" }].filter
        ChatAction.isLoginReqSend).length = 1 ∧
    askNicknameCallback "alice" = false :=
  name_taken_single_login_retry ["", "alice"] bobHandler nameTakenEnv
    ⟨2, "", 3⟩ "alice" rfl rfl rfl rfl

/-- C5 (code evaluated at the failing input): `tokenCh` is created by
`NewHandler` as `make(chan string)` — capacity 0, unbuffered — so a send on it
completes immediately only when a receiver is already blocked on the channel;
with no receiver waiting, the send of the token in `HandleLoginResponse`
blocks the receive-loop goroutine. -/
theorem tokenCh_unbuffered_send_blocks :
    newHandlerTokenCh.capacity = 0 ∧
    sendCompletesImmediately newHandlerTokenCh false = false ∧
    sendCompletesImmediately newHandlerTokenCh true = true :=
  ⟨rfl, rfl, rfl⟩

/-- C6 counterexample: in the startup order of `main`, some transport listener
registration occurs after the receive-loop goroutine has been started. -/
theorem registration_after_listen_start_cex :
    registrationAfterListenStart mainStartupSequence = true := rfl

/-- C6 (amended): `main` starts the receive-loop goroutine first and registers
the transport listeners afterwards: no transport registration precedes the
`go Listen` step, and all five transport listener registrations (one
disconnect listener, four response listeners) come after it. -/
theorem all_transport_registrations_after_listen :
    (mainStartupSequence.takeWhile (fun s => !s.startsReceiveLoop)).all
        (fun s => !s.isTransportRegistration) = true ∧
    ((mainStartupSequence.dropWhile (fun s => !s.startsReceiveLoop)).filter
        StartupStep.isTransportRegistration).length = 5 :=
  ⟨rfl, rfl⟩

/-- C7: encoding a post-message request built from token T and text M (as
`PostMessage` builds it) and decoding the wire object as a generic envelope
yields exactly the fields type = 3, token = T, msg = M — and nothing else; and
decoding is idempotent under re-encoding: marshalling the decoded map and
decoding again gives the same envelope. -/
theorem postMsgReq_roundtrip (T M : String) :
    envGet (decodeGeneric (postMsgReq.encode ⟨typePostMessageReq, T, M⟩)) "type" =
      some (JVal.num 3) ∧
    envGet (decodeGeneric (postMsgReq.encode ⟨typePostMessageReq, T, M⟩)) "token" =
      some (JVal.str T) ∧
    envGet (decodeGeneric (postMsgReq.encode ⟨typePostMessageReq, T, M⟩)) "msg" =
      some (JVal.str M) ∧
    (decodeGeneric (postMsgReq.encode ⟨typePostMessageReq, T, M⟩)).map Prod.fst =
      ["msg", "token", "type"] ∧
    decodeGeneric (marshalMap (decodeGeneric (postMsgReq.encode ⟨typePostMessageReq, T, M⟩))) =
      decodeGeneric (postMsgReq.encode ⟨typePostMessageReq, T, M⟩) :=
  ⟨rfl, rfl, rfl, rfl, rfl⟩

/-- Witness for C7 at a concrete token and message. -/
theorem postMsgReq_roundtrip_witness :
    envGet (decodeGeneric (postMsgReq.encode ⟨typePostMessageReq, "tok42", "hi there"⟩)) "type" =
      some (JVal.num 3) ∧
    envGet (decodeGeneric (postMsgReq.encode ⟨typePostMessageReq, "tok42", "hi there"⟩)) "token" =
      some (JVal.str "tok42") ∧
    envGet (decodeGeneric (postMsgReq.encode ⟨typePostMessageReq, "tok42", "hi there"⟩)) "msg" =
      some (JVal.str "hi there") ∧
    (decodeGeneric (postMsgReq.encode ⟨typePostMessageReq, "tok42", "hi there"⟩)).map Prod.fst =
      ["msg", "token", "type"] ∧
    decodeGeneric (marshalMap
        (decodeGeneric (postMsgReq.encode ⟨typePostMessageReq, "tok42", "hi there"⟩))) =
      decodeGeneric (postMsgReq.encode ⟨typePostMessageReq, "tok42", "hi there"⟩) :=
  postMsgReq_roundtrip "tok42" "hi there"

/-- C8: the online-users listener forwards the decoded user list to the UI
channel exactly when the response status is ok; on any other status it logs an
error and pushes nothing. -/
theorem handleOnlineUsers_ok_forwards_nonok_logs (env : Envelope) (r : onlineUsers)
    (htype : envTypeIs env typeOnlineUsers = true)
    (hdec : decodeOnlineUsers env = some r) :
    (r.status = statusOk → handleOnlineUsers env = [ChatAction.pushOnlineUsers r.users]) ∧
    (r.status ≠ statusOk →
      handleOnlineUsers env =
        [ChatAction.logError ("Get online users failed, status: " ++ toString r.status)] ∧
      (handleOnlineUsers env).any ChatAction.isPushOnlineUsers = false) := by
  constructor
  · intro hst
    simp [handleOnlineUsers, htype, hdec, hst]
  · intro hst
    refine ⟨?_, ?_⟩ <;>
      simp [handleOnlineUsers, htype, hdec, hst, ChatAction.isPushOnlineUsers]

/-- Witness for C8: an ok response forwards its list; the §8 scenario response
`type 7, status 3, users []` logs and forwards nothing. -/
theorem handleOnlineUsers_ok_forwards_nonok_logs_witness :
    handleOnlineUsers okUsersEnv = [ChatAction.pushOnlineUsers ["alice", "bob"]] ∧
    (handleOnlineUsers badUsersEnv =
        [ChatAction.logError ("Get online users failed, status: " ++ toString (3 : Int))] ∧
      (handleOnlineUsers badUsersEnv).any ChatAction.isPushOnlineUsers = false) :=
  ⟨(handleOnlineUsers_ok_forwards_nonok_logs okUsersEnv ⟨7, 1, ["alice", "bob"]⟩ rfl rfl).1 rfl,
   (handleOnlineUsers_ok_forwards_nonok_logs badUsersEnv ⟨7, 3, []⟩ rfl rfl).2 (by decide)⟩

/-- C9 counterexample: a send before the first successful `Connect` goes
through the nil `*websocket.Conn` — the method call dereferences the nil
receiver and panics; no I/O error is returned to the caller. -/
theorem writeJSON_nil_handle_panics_cex :
    (writeJSON ConnPtr.nil).1 = SendResult.nilDerefPanic ∧
    SendResult.isIOError (writeJSON ConnPtr.nil).1 = false :=
  ⟨rfl, rfl⟩

/-- C9 (amended): for every transport send made while the stored handle is
present but the connection is no longer open (the reconnect window — `Connect`
never clears the field, so during a reconnect it retains the previous, closed
connection), the call returns an I/O error to the caller, from a single
underlying write attempt: the transport never retries a failed send. -/
theorem writeJSON_closed_handle_ioError (conn : ConnPtr)
    (h : conn = ConnPtr.handle false) :
    (writeJSON conn).1 = SendResult.ioError "write: connection closed" ∧
    SendResult.isIOError (writeJSON conn).1 = true ∧
    (writeJSON conn).2 = 1 := by
  subst h
  exact ⟨rfl, rfl, rfl⟩

/-- Witness for C9 (amended) at the concrete closed handle. -/
theorem writeJSON_closed_handle_ioError_witness :
    (writeJSON (ConnPtr.handle false)).1 = SendResult.ioError "write: connection closed" ∧
    SendResult.isIOError (writeJSON (ConnPtr.handle false)).1 = true ∧
    (writeJSON (ConnPtr.handle false)).2 = 1 :=
  writeJSON_closed_handle_ioError (ConnPtr.handle false) rfl

/-- C10: the disconnect handler writes no field of the chat handler — the
stored token keeps its pre-disconnect value until the re-armed receiver gets
the new token from the hand-off; a post-message or online-users request built
in that window carries exactly the stale pre-disconnect token, and the token
changes only when the hand-off delivers the new one. -/
theorem token_unchanged_until_handoff (h : ChatHandler) (e : GoError)
    (msg newTok : String) :
    (handleOnDisconnect h e).2.token = h.token ∧
    (handleOnDisconnect h e).2 = h ∧
    PostMessage (handleOnDisconnect h e).2 msg =
      ChatAction.send
        [("type", JVal.num 3), ("token", JVal.str h.token), ("msg", JVal.str msg)] ∧
    RequestOnlineUsers (handleOnDisconnect h e).2 =
      ChatAction.send [("type", JVal.num 6), ("token", JVal.str h.token)] ∧
    (armedTokenReceive (handleOnDisconnect h e).2 newTok).token = newTok :=
  ⟨rfl, rfl, rfl, rfl, rfl⟩

/-- Witness for C10 at a concrete handler, error, message and new token. -/
theorem token_unchanged_until_handoff_witness :
    (handleOnDisconnect bobHandler eNetSample).2.token = bobHandler.token ∧
    (handleOnDisconnect bobHandler eNetSample).2 = bobHandler ∧
    PostMessage (handleOnDisconnect bobHandler eNetSample).2 "hello" =
      ChatAction.send
        [("type", JVal.num 3), ("token", JVal.str bobHandler.token),
         ("msg", JVal.str "hello")] ∧
    RequestOnlineUsers (handleOnDisconnect bobHandler eNetSample).2 =
      ChatAction.send [("type", JVal.num 6), ("token", JVal.str bobHandler.token)] ∧
    (armedTokenReceive (handleOnDisconnect bobHandler eNetSample).2 "tok1").token = "tok1" :=
  token_unchanged_until_handoff bobHandler eNetSample "hello" "tok1"

end GoChat
